import Mathlib

/-!
Verification of the HTTP route handlers of the data-platform repository.

Each handler is shallowly embedded as a pure Lean function of its request
data together with oracles for the outcomes of the vendor calls it issues
(S3, Supabase, axios).  Effects such as issued S3 commands, outgoing API
calls, database writes and scheduled timers are returned explicitly as
data, so that properties about them can be stated and proved.
-/

/-! ## JavaScript truthiness and template-literal semantics

The handlers test request fields with `!field`, i.e. JavaScript
truthiness: `undefined` and the empty string are falsy for strings,
`undefined` and `0` are falsy for numbers.  A template literal
interpolating `undefined` renders the text `undefined`.
-/

namespace Js

/-- Truthiness of a possibly-absent string value: absent and `""` are falsy. -/
def truthyStr : Option String → Bool
  | none => false
  | some s => !s.isEmpty

/-- Truthiness of a possibly-absent numeric value: absent and `0` are falsy. -/
def truthyInt : Option Int → Bool
  | none => false
  | some n => n != 0

/-- Template-literal interpolation: an absent value renders as `undefined`. -/
def str : Option String → String
  | none => "undefined"
  | some s => s

end Js

/-! ## db-connect handler (`src/app/api/dbconnect/old_route.ts`)

The `POST` handler destructures `dbtype` from the request body and
dispatches: the first branch handles `dbtype === "postgres" ||
dbtype === "gcloud"`, the second `dbtype === "mysql"`, the third
`dbtype === "gcloud"` again, and otherwise it throws
`"Unsupported database type"`.  Each of the first three branches builds a
schema-introspection SQL template string `sqlstr`; the third branch is the
only caller of `connectToPostgres` (the helper with hardcoded ElephantSQL
credentials).
-/

namespace DbConnect

/-- The `sqlstr` template assigned in the first (postgres/gcloud) branch. -/
def postgresSql : String :=
  "WITH table_info AS (\n        SELECT\n          cols.table_name,\n          cols.column_name,\n          cols.data_type,\n          CASE\n            WHEN pk.column_name IS NOT NULL THEN \x27PRIMARY KEY\x27\n            ELSE \x27\x27\n          END AS key_type\n        FROM information_schema.columns cols\n        LEFT JOIN (\n          SELECT\n            tc.table_name,\n            kcu.column_name\n          FROM information_schema.table_constraints tc\n          JOIN information_schema.key_column_usage kcu\n            ON tc.constraint_name = kcu.constraint_name\n            AND tc.table_schema = kcu.table_schema\n          WHERE tc.constraint_type = \x27PRIMARY KEY\x27\n            AND tc.table_schema = \x27public\x27\n        ) pk\n        ON cols.table_name = pk.table_name\n        AND cols.column_name = pk.column_name\n        WHERE cols.table_schema = \x27public\x27\n        ORDER BY cols.table_name, cols.ordinal_position\n      ),\n      foreign_keys AS (\n        SELECT\n          kcu.table_name,\n          kcu.column_name,\n          ccu.table_name AS referenced_table_name\n        FROM information_schema.key_column_usage kcu\n        JOIN information_schema.referential_constraints rc\n          ON kcu.constraint_name = rc.constraint_name\n        JOIN information_schema.constraint_column_usage ccu\n          ON rc.unique_constraint_name = ccu.constraint_name\n        WHERE kcu.constraint_name IN (\n          SELECT constraint_name\n          FROM information_schema.table_constraints\n          WHERE constraint_type = \x27FOREIGN KEY\x27\n            AND table_schema = \x27public\x27\n        )\n      ),\n      indexes AS (\n        SELECT\n          schemaname AS table_schema,\n          tablename AS table_name,\n          indexname AS index_name,\n          indexdef AS index_definition\n        FROM pg_indexes\n        WHERE schemaname = \x27public\x27\n      )\n      \n      SELECT DISTINCT\n        table_info.table_name,\n        table_info.column_name,\n        table_info.data_type,\n        table_info.key_type,\n        CASE\n          WHEN foreign_keys.referenced_table_name IS NOT NULL THEN \x27FOREIGN KEY\x27\n          ELSE \x27\x27\n        END AS foreign_key_type,\n        CASE\n          WHEN indexes.index_name IS NOT NULL THEN \x27INDEX\x27\n          ELSE \x27\x27\n        END AS index_type,\n        foreign_keys.referenced_table_name AS foreign_key_relation\n      FROM table_info\n      LEFT JOIN foreign_keys ON table_info.table_name = foreign_keys.table_name\n        AND table_info.column_name = foreign_keys.column_name\n      LEFT JOIN indexes ON table_info.table_name = indexes.table_name;"

/-- The `sqlstr` template assigned in the `mysql` branch. -/
def mysqlSql : String :=
  "SELECT \n      cols.TABLE_NAME, \n      cols.COLUMN_NAME, \n      cols.DATA_TYPE, \n      CASE \n          WHEN kcu.COLUMN_NAME IS NOT NULL THEN \x27PRIMARY KEY\x27\n          ELSE \x27\x27\n      END AS key_type, \n      CASE \n          WHEN kcu1.COLUMN_NAME IS NOT NULL THEN \x27FOREIGN KEY\x27\n          ELSE \x27\x27\n      END AS foreign_key_type, \n      \x27\x27 AS index_type, \n      kcu1.REFERENCED_TABLE_NAME AS foreign_key_relation \n  FROM INFORMATION_SCHEMA.COLUMNS cols \n  LEFT JOIN (\n      SELECT \n          tc.TABLE_NAME, \n          kcu.COLUMN_NAME \n      FROM INFORMATION_SCHEMA.TABLE_CONSTRAINTS tc \n      JOIN INFORMATION_SCHEMA.KEY_COLUMN_USAGE kcu \n          ON tc.CONSTRAINT_NAME = kcu.CONSTRAINT_NAME \n          AND tc.CONSTRAINT_TYPE = \x27PRIMARY KEY\x27\n  ) kcu ON cols.TABLE_NAME = kcu.TABLE_NAME \n  AND cols.COLUMN_NAME = kcu.COLUMN_NAME \n  LEFT JOIN (\n      SELECT \n          kcu.TABLE_NAME, \n          kcu.COLUMN_NAME, \n          kcu.REFERENCED_TABLE_NAME \n      FROM INFORMATION_SCHEMA.KEY_COLUMN_USAGE kcu \n      JOIN INFORMATION_SCHEMA.REFERENTIAL_CONSTRAINTS rc \n          ON kcu.CONSTRAINT_NAME = rc.CONSTRAINT_NAME\n  ) kcu1 ON cols.TABLE_NAME = kcu1.TABLE_NAME \n  AND cols.COLUMN_NAME = kcu1.COLUMN_NAME;"

/-- The `sqlstr` template assigned in the unreachable third (`gcloud`) branch. -/
def gcloudSql : String :=
  "WITH table_info AS (\n        SELECT\n          cols.table_name,\n          cols.column_name,\n          cols.data_type,\n          CASE\n            WHEN pk.column_name IS NOT NULL THEN \x27PRIMARY KEY\x27\n            ELSE \x27\x27\n          END AS key_type\n        FROM information_schema.columns cols\n        LEFT JOIN (\n          SELECT\n            tc.table_name,\n            kcu.column_name\n          FROM information_schema.table_constraints tc\n          JOIN information_schema.key_column_usage kcu\n            ON tc.constraint_name = kcu.constraint_name\n            AND tc.table_schema = kcu.table_schema\n          WHERE tc.constraint_type = \x27PRIMARY KEY\x27\n            AND tc.table_schema = \x27public\x27\n        ) pk\n        ON cols.table_name = pk.table_name\n        AND cols.column_name = pk.column_name\n        WHERE cols.table_schema = \x27public\x27\n        ORDER BY cols.table_name, cols.ordinal_position\n      ),\n      foreign_keys AS (\n        SELECT\n          kcu.table_name,\n          kcu.column_name,\n          ccu.table_name AS referenced_table_name\n        FROM information_schema.key_column_usage kcu\n        JOIN information_schema.referential_constraints rc\n          ON kcu.constraint_name = rc.constraint_name\n        JOIN information_schema.constraint_column_usage ccu\n          ON rc.unique_constraint_name = ccu.constraint_name\n        WHERE kcu.constraint_name IN (\n          SELECT constraint_name\n          FROM information_schema.table_constraints\n          WHERE constraint_type = \x27FOREIGN KEY\x27\n            AND table_schema = \x27public\x27\n        )\n      ),\n      indexes AS (\n        SELECT\n          schemaname AS table_schema,\n          tablename AS table_name,\n          indexname AS index_name,\n          indexdef AS index_definition\n        FROM pg_indexes\n        WHERE schemaname = \x27public\x27\n      )\n      \n      SELECT DISTINCT\n        table_info.table_name,\n        table_info.column_name,\n        table_info.data_type,\n        table_info.key_type,\n        CASE\n          WHEN foreign_keys.referenced_table_name IS NOT NULL THEN \x27FOREIGN KEY\x27\n          ELSE \x27\x27\n        END AS foreign_key_type,\n        CASE\n          WHEN indexes.index_name IS NOT NULL THEN \x27INDEX\x27\n          ELSE \x27\x27\n        END AS index_type,\n        foreign_keys.referenced_table_name AS foreign_key_relation\n      FROM table_info\n      LEFT JOIN foreign_keys ON table_info.table_name = foreign_keys.table_name\n        AND table_info.column_name = foreign_keys.column_name\n      LEFT JOIN indexes ON table_info.table_name = indexes.table_name;"

/-- Which branch of the `if`/`else if` chain of the db-connect `POST`
handler runs, as a function of the request body's `dbtype` field. -/
inductive Branch
  | pg
  | mysql
  | gcloudDead
  | unsupported
deriving DecidableEq

/-- The branch dispatch of the db-connect `POST` handler, mirroring the
source's chain `if (dbtype === "postgres" || dbtype === "gcloud") ...
else if (dbtype === "mysql") ... else if (dbtype === "gcloud") ...
else throw`. -/
def branchOf (dbtype : Option String) : Branch :=
  if dbtype = some "postgres" ∨ dbtype = some "gcloud" then .pg
  else if dbtype = some "mysql" then .mysql
  else if dbtype = some "gcloud" then .gcloudDead
  else .unsupported

/-- The `sqlstr` sent on each branch (`none` for the throwing branch). -/
def sqlOf : Branch → Option String
  | .pg => some postgresSql
  | .mysql => some mysqlSql
  | .gcloudDead => some gcloudSql
  | .unsupported => none

/-- `connectToPostgres` is invoked only from the third (`gcloud`) branch. -/
def callsConnectToPostgres : Branch → Bool
  | .gcloudDead => true
  | _ => false

end DbConnect

/-- C9: for every `dbtype` the db-connect `POST` handler never reaches the
third (`gcloud`) branch — the first branch's condition already captures
`"gcloud"` — and hence `connectToPostgres` is never invoked. -/
theorem dbconnect_gcloud_branch_unreachable (dbtype : Option String) :
    DbConnect.branchOf dbtype ≠ DbConnect.Branch.gcloudDead ∧
    DbConnect.callsConnectToPostgres (DbConnect.branchOf dbtype) = false := by
  have h : DbConnect.branchOf dbtype ≠ DbConnect.Branch.gcloudDead := by
    unfold DbConnect.branchOf
    split
    · simp
    · split
      · simp
      · split
        · rename_i h1 h2 h3
          exact absurd (Or.inr h3) h1
        · simp
  refine ⟨h, ?_⟩
  cases hb : DbConnect.branchOf dbtype <;>
    simp [DbConnect.callsConnectToPostgres]
  exact h hb

/-- C9 witness: at `dbtype = "gcloud"` the handler takes the first branch,
not the dead one, and does not call `connectToPostgres`. -/
theorem dbconnect_gcloud_branch_unreachable_witness :
    DbConnect.branchOf (some "gcloud") ≠ DbConnect.Branch.gcloudDead ∧
    DbConnect.callsConnectToPostgres (DbConnect.branchOf (some "gcloud")) = false :=
  dbconnect_gcloud_branch_unreachable (some "gcloud")

/-- C4 counterexample: the SQL template sent on the Postgres branch is not
character-for-character equal to the SQL template sent on the MySQL branch. -/
theorem dbconnect_pg_sql_ne_mysql_sql :
    DbConnect.postgresSql ≠ DbConnect.mysqlSql := by decide

/-- C4 (amended): the verbatim SQL reuse is between the Postgres branch and
the unreachable gcloud branch, whose templates are character-for-character
equal; the MySQL branch's template differs from the Postgres one. -/
theorem dbconnect_sql_reuse :
    DbConnect.sqlOf DbConnect.Branch.pg = DbConnect.sqlOf DbConnect.Branch.gcloudDead ∧
    DbConnect.sqlOf DbConnect.Branch.pg ≠ DbConnect.sqlOf DbConnect.Branch.mysql := by
  constructor
  · rfl
  · intro h
    have : DbConnect.postgresSql = DbConnect.mysqlSql := by
      simpa [DbConnect.sqlOf] using h
    revert this
    decide

/-! ## Multipart S3 upload flow

Three separate stateless endpoints: initiate
(`CreateMultipartUploadCommand`), two variants of the part-URL endpoint
(`UploadPartCommand` + presign), and complete
(`CompleteMultipartUploadCommand`).  Each is a pure function of its JSON
body fields and an oracle for the S3 call; the S3 command it issues is
returned explicitly.  No state parameter exists: the `uploadId` used by
the part-URL and complete endpoints is taken from the request body.
-/

namespace Multipart

/-- A part entry of the `complete` body (`{ ETag, PartNumber }`). -/
structure Part where
  eTag : String
  pNum : Int
deriving DecidableEq

/-- The S3 command issued by a multipart endpoint: the object key, and the
upload id / part number / parts list taken from the request body where the
command has them. -/
structure S3Cmd where
  key : String
  uploadId : Option String := none
  pNum : Option Int := none
  parts : Option (List Part) := none
deriving DecidableEq

/-- HTTP responses of the three multipart endpoints. -/
inductive Resp
  | missingFields
  | okInitiate (uploadId : Option String)
  | okUrl (url : String)
  | okComplete
  | vendorError (msg : String)
deriving DecidableEq

/-- HTTP status of a multipart response. -/
def Resp.status : Resp → Nat
  | .missingFields => 400
  | .okInitiate _ => 200
  | .okUrl _ => 200
  | .okComplete => 200
  | .vendorError _ => 500

/-- The `error` field of a multipart error response. -/
def Resp.errorMsg : Resp → Option String
  | .missingFields => some "Missing required fields"
  | .vendorError m => some m
  | _ => none

/-- Initiate endpoint: checks `!fileName || !userId`, then sends
`CreateMultipartUploadCommand` for key `` `${userId}/${fileName}` `` and
returns the resulting `UploadId`.  `s3 = none` models the send throwing;
`s3 = some u` a resolved send with `UploadId = u`. -/
def initiate (fileName userId : Option String) (s3 : Option (Option String)) :
    Resp × Option S3Cmd :=
  if !Js.truthyStr fileName || !Js.truthyStr userId then
    (.missingFields, none)
  else
    let cmd : S3Cmd := { key := Js.str userId ++ "/" ++ Js.str fileName }
    match s3 with
    | none => (.vendorError "Error initiating multipart upload", some cmd)
    | some u => (.okInitiate u, some cmd)

/-- First part-URL endpoint: checks
`!fileName || !userId || !uploadId || !partNumber`, then presigns an
`UploadPartCommand` for key `` `${userId}/${fileName}` `` with the body's
`uploadId` and `partNumber`.  `sign = none` models `getSignedUrl`
throwing. -/
def partUrl8 (fileName userId uploadId : Option String) (partNumber : Option Int)
    (sign : Option String) : Resp × Option S3Cmd :=
  if !Js.truthyStr fileName || !Js.truthyStr userId || !Js.truthyStr uploadId
      || !Js.truthyInt partNumber then
    (.missingFields, none)
  else
    let cmd : S3Cmd := { key := Js.str userId ++ "/" ++ Js.str fileName,
                         uploadId := uploadId, pNum := partNumber }
    match sign with
    | none => (.vendorError "Error generating pre-signed URL", some cmd)
    | some url => (.okUrl url, some cmd)

/-- Second part-URL endpoint (duplicate route): checks
`!uploadId || !partNumber || !fileName || !userId`, then presigns an
`UploadPartCommand` for `` key = `${userId}/${fileName}` `` with the
body's `uploadId` and `partNumber`. -/
def partUrl9 (uploadId : Option String) (partNumber : Option Int)
    (fileName userId : Option String) (sign : Option String) :
    Resp × Option S3Cmd :=
  if !Js.truthyStr uploadId || !Js.truthyInt partNumber
      || !Js.truthyStr fileName || !Js.truthyStr userId then
    (.missingFields, none)
  else
    let cmd : S3Cmd := { key := Js.str userId ++ "/" ++ Js.str fileName,
                         uploadId := uploadId, pNum := partNumber }
    match sign with
    | none => (.vendorError "Error generating pre-signed URL", some cmd)
    | some url => (.okUrl url, some cmd)

/-- Complete endpoint: checks `!uploadId || !parts || !fileName || !userId`
(a present array is always truthy), then sends
`CompleteMultipartUploadCommand` for key `` `${userId}/${fileName}` ``
with the body's `uploadId` and `parts`. -/
def complete (uploadId : Option String) (parts : Option (List Part))
    (fileName userId : Option String) (s3 : Option Unit) :
    Resp × Option S3Cmd :=
  if !Js.truthyStr uploadId || !parts.isSome || !Js.truthyStr fileName
      || !Js.truthyStr userId then
    (.missingFields, none)
  else
    let cmd : S3Cmd := { key := Js.str userId ++ "/" ++ Js.str fileName,
                         uploadId := uploadId, parts := parts }
    match s3 with
    | none => (.vendorError "Error completing multipart upload", some cmd)
    | some _ => (.okComplete, some cmd)

end Multipart

/-- C3 counterexample: a part-URL request in which every required field is
present (`uploadId`, `partNumber`, `fileName`, `userId` all supplied, with
`partNumber = 0`) is answered with the 400 `Missing required fields`
response and no S3 command targeting the key is issued, refuting the
claim's `otherwise` clause. -/
theorem multipart_present_fields_not_keyed :
    (some "upl" : Option String).isSome = true ∧
    (some (0 : Int) : Option Int).isSome = true ∧
    (some "f.txt" : Option String).isSome = true ∧
    (some "u1" : Option String).isSome = true ∧
    Multipart.partUrl9 (some "upl") (some 0) (some "f.txt") (some "u1")
        (some "https://presigned") =
      (Multipart.Resp.missingFields, none) := by
  decide

/-- C3 (amended): each multipart endpoint returns 400 with error
`Missing required fields` when any required body field is absent — and
more generally whenever a required field is JS-falsy, e.g. `partNumber =
0` — and when every required field is truthy it issues its S3 command with
key `userId ++ "/" ++ fileName`, the part-URL and complete endpoints
passing exactly the caller-supplied `uploadId`; no server-side state
links the three requests. -/
theorem multipart_flow_behaviour (fileName userId uploadId : Option String)
    (partNumber : Option Int) (parts : Option (List Multipart.Part))
    (s3i : Option (Option String)) (sign8 sign9 : Option String)
    (s3c : Option Unit) :
    (fileName = none ∨ userId = none →
      Multipart.initiate fileName userId s3i = (.missingFields, none)) ∧
    (fileName = none ∨ userId = none ∨ uploadId = none ∨ partNumber = none →
      Multipart.partUrl8 fileName userId uploadId partNumber sign8 =
          (.missingFields, none) ∧
        Multipart.partUrl9 uploadId partNumber fileName userId sign9 =
          (.missingFields, none)) ∧
    (uploadId = none ∨ parts = none ∨ fileName = none ∨ userId = none →
      Multipart.complete uploadId parts fileName userId s3c =
        (.missingFields, none)) ∧
    (Js.truthyStr fileName = true → Js.truthyStr userId = true →
      (Multipart.initiate fileName userId s3i).2 =
        some { key := Js.str userId ++ "/" ++ Js.str fileName }) ∧
    (Js.truthyStr fileName = true → Js.truthyStr userId = true →
      Js.truthyStr uploadId = true → Js.truthyInt partNumber = true →
      (Multipart.partUrl8 fileName userId uploadId partNumber sign8).2 =
          some { key := Js.str userId ++ "/" ++ Js.str fileName,
                 uploadId := uploadId, pNum := partNumber } ∧
        (Multipart.partUrl9 uploadId partNumber fileName userId sign9).2 =
          some { key := Js.str userId ++ "/" ++ Js.str fileName,
                 uploadId := uploadId, pNum := partNumber }) ∧
    (Js.truthyStr fileName = true → Js.truthyStr userId = true →
      Js.truthyStr uploadId = true → parts.isSome = true →
      (Multipart.complete uploadId parts fileName userId s3c).2 =
        some { key := Js.str userId ++ "/" ++ Js.str fileName,
               uploadId := uploadId, parts := parts }) ∧
    Multipart.Resp.missingFields.status = 400 ∧
    Multipart.Resp.missingFields.errorMsg = some "Missing required fields" := by
  refine ⟨?_, ?_, ?_, ?_, ?_, ?_, rfl, rfl⟩
  · rintro (rfl | rfl) <;>
      simp [Multipart.initiate, Js.truthyStr]
  · rintro (rfl | rfl | rfl | rfl) <;>
      simp [Multipart.partUrl8, Multipart.partUrl9, Js.truthyStr, Js.truthyInt]
  · rintro (rfl | rfl | rfl | rfl) <;>
      simp [Multipart.complete, Js.truthyStr]
  · intro hf hu
    cases s3i <;> simp [Multipart.initiate, hf, hu]
  · intro hf hu hi hp
    constructor
    · cases sign8 <;> simp [Multipart.partUrl8, hf, hu, hi, hp]
    · cases sign9 <;> simp [Multipart.partUrl9, hf, hu, hi, hp]
  · intro hf hu hi hp
    cases s3c <;> simp [Multipart.complete, hf, hu, hi, hp]

/-- C3 witness: the amended flow behaviour instantiated at a concrete
request (`fileName = "f.txt"`, `userId = "u1"`, `uploadId = "upl"`,
`partNumber = 3`, one part, all S3 calls resolving). -/
theorem multipart_flow_behaviour_witness :
    (Multipart.initiate (some "f.txt") (some "u1") (some (some "upl"))).2 =
        some { key := "u1/f.txt" } ∧
      (Multipart.partUrl8 (some "f.txt") (some "u1") (some "upl") (some 3)
          (some "https://u")).2 =
        some { key := "u1/f.txt", uploadId := some "upl", pNum := some 3 } := by
  have h := multipart_flow_behaviour (some "f.txt") (some "u1") (some "upl")
    (some 3) (some [⟨"etag1", 3⟩]) (some (some "upl")) (some "https://u")
    (some "https://u") (some ())
  refine ⟨?_, ?_⟩
  · have := h.2.2.2.1 (by decide) (by decide)
    simpa [Js.str] using this
  · have := (h.2.2.2.2.1 (by decide) (by decide) (by decide) (by decide)).1
    simpa [Js.str] using this

/-- C8: in both part-URL endpoints, a body whose other fields are truthy
but whose `partNumber` is the present value `0` is rejected with the 400
`Missing required fields` response, because the check `!partNumber` uses
JS falsiness rather than an absence test. -/
theorem partnumber_zero_rejected (fileName userId uploadId : Option String)
    (sign8 sign9 : Option String)
    (hf : Js.truthyStr fileName = true) (hu : Js.truthyStr userId = true)
    (hi : Js.truthyStr uploadId = true) :
    Multipart.partUrl8 fileName userId uploadId (some 0) sign8 =
        (Multipart.Resp.missingFields, none) ∧
      Multipart.partUrl9 uploadId (some 0) fileName userId sign9 =
        (Multipart.Resp.missingFields, none) ∧
      Multipart.Resp.missingFields.status = 400 ∧
      Multipart.Resp.missingFields.errorMsg = some "Missing required fields" := by
  refine ⟨?_, ?_, rfl, rfl⟩ <;>
    simp [Multipart.partUrl8, Multipart.partUrl9, hf, hu, hi, Js.truthyInt]

/-- C8 witness: the rejection at the concrete body
`{fileName := "f.txt", userId := "u1", uploadId := "upl", partNumber := 0}`. -/
theorem partnumber_zero_rejected_witness :
    Multipart.partUrl8 (some "f.txt") (some "u1") (some "upl") (some 0)
        (some "https://u") =
      (Multipart.Resp.missingFields, none) :=
  (partnumber_zero_rejected (some "f.txt") (some "u1") (some "upl")
    (some "https://u") (some "https://u") (by decide) (by decide) (by decide)).1

/-! ## S3 rename handler (`src/app/api/s3/rename-file/route.ts`)

The `POST` handler copies the object at `oldFile` to `newFile`
(`CopyObjectCommand`) and then deletes `oldFile` (`DeleteObjectCommand`);
any throw lands in the single catch, which answers 500.  The bucket is
modelled as the list of object keys; a successful copy inserts the new
key, a successful delete removes the old key, and a throwing call leaves
the bucket as it was at the moment of the throw.
-/

namespace RenameFile

/-- Outcome of one S3 SDK call: resolves or throws. -/
inductive S3Outcome
  | ok
  | throws
deriving DecidableEq

/-- Responses of the rename handler. -/
inductive Resp
  | invalidRequest
  | renamed
  | caught
deriving DecidableEq

/-- HTTP status of a rename response. -/
def Resp.status : Resp → Nat
  | .invalidRequest => 400
  | .renamed => 201
  | .caught => 500

/-- The `message` field of a rename response. -/
def Resp.message : Resp → Option String
  | .renamed => some "File renamed successfully"
  | _ => none

/-- The rename `POST` handler.  `user` is the `getAutonomisUser` data,
`body` the parsed JSON body as the destructured `(oldFile, newFile)`
(`none` models `req.json()` throwing), `copyRes`/`deleteRes` the outcomes
of the two S3 sends, `bucket` the keys present in the bucket.  Returns the
response together with the final bucket contents. -/
def POST (user : Option Unit) (body : Option (Option String × Option String))
    (copyRes deleteRes : S3Outcome) (bucket : List String) :
    Resp × List String :=
  match user with
  | none => (.invalidRequest, bucket)
  | some _ =>
    match body with
    | none => (.caught, bucket)
    | some (oldFile, newFile) =>
      match copyRes with
      | .throws => (.caught, bucket)
      | .ok =>
        let afterCopy := List.insert (Js.str newFile) bucket
        match deleteRes with
        | .throws => (.caught, afterCopy)
        | .ok => (.renamed, afterCopy.filter (fun k => k ≠ Js.str oldFile))

end RenameFile

/-- C5: the rename handler has no partial-failure recovery: when the copy
succeeds and the delete throws it answers 500 and the newly copied object
stays in the bucket; a 201 answer happens only when both S3 calls
succeed, and then it carries the message `File renamed successfully`. -/
theorem rename_copy_delete_no_recovery (user : Option Unit)
    (body : Option (Option String × Option String))
    (oldFile newFile : Option String) (bucket : List String)
    (copyRes deleteRes : RenameFile.S3Outcome) :
    ((RenameFile.POST (some ()) (some (oldFile, newFile)) .ok .throws
          bucket).1.status = 500 ∧
      Js.str newFile ∈
        (RenameFile.POST (some ()) (some (oldFile, newFile)) .ok .throws
          bucket).2) ∧
    ((RenameFile.POST user body copyRes deleteRes bucket).1.status = 201 →
      copyRes = .ok ∧ deleteRes = .ok) ∧
    ((RenameFile.POST (some ()) (some (oldFile, newFile)) .ok .ok bucket).1 =
        RenameFile.Resp.renamed ∧
      RenameFile.Resp.renamed.status = 201 ∧
      RenameFile.Resp.renamed.message = some "File renamed successfully") := by
  refine ⟨⟨rfl, ?_⟩, ?_, rfl, rfl, rfl⟩
  · simp [RenameFile.POST]
  · intro h
    rcases user with _ | u
    · simp [RenameFile.POST, RenameFile.Resp.status] at h
    rcases body with _ | ⟨o, n⟩
    · simp [RenameFile.POST, RenameFile.Resp.status] at h
    cases copyRes
    · cases deleteRes
      · exact ⟨rfl, rfl⟩
      · simp [RenameFile.POST, RenameFile.Resp.status] at h
    · simp [RenameFile.POST, RenameFile.Resp.status] at h

/-- C5 witness: at the concrete request renaming `"u/a.txt"` to
`"u/b.txt"` over the bucket `["u/a.txt"]`, with the copy succeeding and
the delete throwing, the handler answers 500 and `"u/b.txt"` remains in
the bucket; had both calls succeeded it would answer 201. -/
theorem rename_copy_delete_no_recovery_witness :
    ((RenameFile.POST (some ()) (some (some "u/a.txt", some "u/b.txt")) .ok
          .throws ["u/a.txt"]).1.status = 500 ∧
      Js.str (some "u/b.txt") ∈
        (RenameFile.POST (some ()) (some (some "u/a.txt", some "u/b.txt")) .ok
          .throws ["u/a.txt"]).2) ∧
    (RenameFile.POST (some ()) (some (some "u/a.txt", some "u/b.txt")) .ok .ok
        ["u/a.txt"]).1 = RenameFile.Resp.renamed :=
  ⟨(rename_copy_delete_no_recovery (some ()) (some (some "u/a.txt", some "u/b.txt"))
      (some "u/a.txt") (some "u/b.txt") ["u/a.txt"] .ok .throws).1,
   (rename_copy_delete_no_recovery (some ()) (some (some "u/a.txt", some "u/b.txt"))
      (some "u/a.txt") (some "u/b.txt") ["u/a.txt"] .ok .ok).2.2.1⟩

/-! ## Credentials handler (`GET`, switch on the `app` query parameter)

The handler authenticates the session, then switches on
`searchParams.get('app')`.  Each provider case reads its credential
cookies, answers 401 `Not authenticated` when the checked cookie is
JS-falsy, and otherwise calls the provider's API with an `Authorization`
header interpolating the access token; the default case answers 400
`Wrong data source.`.  The `zoho` case has no `break` after its `try`
block: when the Zoho call resolves with falsy `res.data`, execution falls
through into the `mixpanel` case.  Outgoing provider calls are returned
as an explicit list; the token payloads of the success responses are
determined by the same cookies and are not repeated in the model.
-/

namespace Credentials

/-- An outgoing provider API call: endpoint and `Authorization` header
(`""` when the request carries no such header). -/
structure ApiCall where
  endpoint : String
  auth : String
deriving DecidableEq

/-- Outcome of a provider API call that the handler only ever observes as
resolved or rejected. -/
inductive ApiOutcome
  | ok
  | throws
deriving DecidableEq

/-- Outcome of the Zoho `apiCall`: resolved with truthy `res.data`,
resolved with falsy `res.data` (the handler then falls through into the
`mixpanel` case), or rejected. -/
inductive ZohoOutcome
  | ok
  | okNoData
  | throws
deriving DecidableEq

/-- The observable JSON response of the credentials handler: HTTP status
and the `error`, `message` and `success` fields. -/
structure Resp where
  status : Nat
  error : Option String := none
  message : Option String := none
  success : Option Bool := none
deriving DecidableEq

/-- The 401 response `{ error: 'Not authenticated', success: false }`. -/
def notAuthenticated : Resp :=
  { status := 401, error := some "Not authenticated", success := some false }

/-- The `mixpanel` case body (also reached by fall-through from `zoho`):
checks the `mixpanel_username` cookie, then issues `axios.get('')`. -/
def mixpanelBlock (cookies : String → Option String) (mixApi : ApiOutcome) :
    Resp × List ApiCall :=
  let username := cookies "mixpanel_username"
  if !Js.truthyStr username then (notAuthenticated, [])
  else
    let call : ApiCall := ⟨"", ""⟩
    match mixApi with
    | .ok => ({ status := 200 }, [call])
    | .throws =>
      ({ status := 401, error := some "Error while fetching your zoho\x27s users" },
       [call])

/-- The credentials `GET` handler.  `user` is the `getAutonomisUser` data,
`app` the `app` query parameter, `cookies` the request cookie store, and
the remaining arguments oracles for the provider API calls. -/
def GET (user : Option Unit) (app : Option String)
    (cookies : String → Option String)
    (sfApi hubApi mixApi gaApi airApi : ApiOutcome) (zohoApi : ZohoOutcome) :
    Resp × List ApiCall :=
  match user with
  | none => ({ status := 400, error := some "Invalid request" }, [])
  | some _ =>
    if app = some "salesforce" then
      let access_token := cookies "sf_access_token"
      let instance_url := cookies "sf_instance_url"
      if !Js.truthyStr access_token || !Js.truthyStr instance_url then
        (notAuthenticated, [])
      else
        let call : ApiCall := ⟨Js.str instance_url ++ "/services/oauth2/userinfo",
                               "Bearer " ++ Js.str access_token⟩
        match sfApi with
        | .ok => ({ status := 200 }, [call])
        | .throws =>
          ({ status := 401,
             error := some "Error while fetching your salesforce credentials" },
           [call])
    else if app = some "hubspot" then
      let hub_access_token := cookies "hs_access_token"
      if !Js.truthyStr hub_access_token then (notAuthenticated, [])
      else
        let call : ApiCall :=
          ⟨"https://api.hubapi.com/account-info/v3/api-usage/daily/private-apps",
           "Bearer " ++ Js.str hub_access_token⟩
        match hubApi with
        | .ok => ({ status := 200 }, [call])
        | .throws =>
          ({ status := 401,
             error := some "Error while fetching your daily limit of hubspot" },
           [call])
    else if app = some "zoho" then
      let zoho_access_token := cookies "zoho_access_token"
      if !Js.truthyStr zoho_access_token then (notAuthenticated, [])
      else
        let call : ApiCall := ⟨"/crm/v6/users/actions/count",
                               "Bearer " ++ Js.str zoho_access_token⟩
        match zohoApi with
        | .ok => ({ status := 200 }, [call])
        | .throws =>
          ({ status := 401,
             error := some "Error while fetching your zoho\x27s users" },
           [call])
        | .okNoData =>
          let fallthrough := mixpanelBlock cookies mixApi
          (fallthrough.1, call :: fallthrough.2)
    else if app = some "mixpanel" then
      mixpanelBlock cookies mixApi
    else if app = some "googleanalytics4" then
      let ga_access_token := cookies "ga_4_access_token"
      if !Js.truthyStr ga_access_token then (notAuthenticated, [])
      else
        let call : ApiCall :=
          ⟨"https://analyticsdata.googleapis.com/v1beta/properties/0/metadata",
           "Bearer " ++ Js.str ga_access_token⟩
        match gaApi with
        | .ok => ({ status := 201 }, [call])
        | .throws =>
          ({ status := 401,
             message := some "Error while fetching your Google Analytics Data" },
           [call])
    else if app = some "airtable" then
      let airtable_access_token := cookies "airtable_access_token"
      let airtable_refresh_token := cookies "airtable_refresh_token"
      if !Js.truthyStr airtable_access_token &&
          !Js.truthyStr airtable_refresh_token then
        (notAuthenticated, [])
      else
        let call : ApiCall := ⟨"https://api.airtable.com/v0/meta/bases",
                               "Bearer " ++ Js.str airtable_access_token⟩
        match airApi with
        | .ok => ({ status := 201 }, [call])
        | .throws =>
          ({ status := 401,
             message := some "Error while fetching your Airtable Data" },
           [call])
    else
      ({ status := 400, error := some "Wrong data source." }, [])

end Credentials

/-- Over a cookie whose present value is nonempty, JS-falsy means absent. -/
theorem cookie_falsy_iff_absent (c : Option String)
    (h : ∀ v, c = some v → v.isEmpty = false) :
    Js.truthyStr c = false ↔ c = none := by
  cases c with
  | none => simp [Js.truthyStr]
  | some v => simp [Js.truthyStr, h v rfl]

/-- C6: the credentials handler answers 400 `Wrong data source.` for every
`app` value outside the supported provider names, and for each of
salesforce, hubspot, zoho, mixpanel and googleanalytics4 an authenticated
request whose credential cookie is absent is answered 401
`Not authenticated` with `success: false` and no provider API call. -/
theorem credentials_switch (app : Option String)
    (cookies : String → Option String)
    (sfApi hubApi mixApi gaApi airApi : Credentials.ApiOutcome)
    (zohoApi : Credentials.ZohoOutcome) :
    (app ∉ [some "salesforce", some "hubspot", some "zoho", some "mixpanel",
        some "googleanalytics4", some "airtable"] →
      Credentials.GET (some ()) app cookies sfApi hubApi mixApi gaApi airApi
          zohoApi =
        ({ status := 400, error := some "Wrong data source." }, [])) ∧
    (cookies "sf_access_token" = none →
      Credentials.GET (some ()) (some "salesforce") cookies sfApi hubApi mixApi
          gaApi airApi zohoApi =
        (Credentials.notAuthenticated, [])) ∧
    (cookies "hs_access_token" = none →
      Credentials.GET (some ()) (some "hubspot") cookies sfApi hubApi mixApi
          gaApi airApi zohoApi =
        (Credentials.notAuthenticated, [])) ∧
    (cookies "zoho_access_token" = none →
      Credentials.GET (some ()) (some "zoho") cookies sfApi hubApi mixApi gaApi
          airApi zohoApi =
        (Credentials.notAuthenticated, [])) ∧
    (cookies "mixpanel_username" = none →
      Credentials.GET (some ()) (some "mixpanel") cookies sfApi hubApi mixApi
          gaApi airApi zohoApi =
        (Credentials.notAuthenticated, [])) ∧
    (cookies "ga_4_access_token" = none →
      Credentials.GET (some ()) (some "googleanalytics4") cookies sfApi hubApi
          mixApi gaApi airApi zohoApi =
        (Credentials.notAuthenticated, [])) := by
  refine ⟨?_, ?_, ?_, ?_, ?_, ?_⟩
  · intro h
    simp only [List.mem_cons, List.mem_singleton, not_or] at h
    obtain ⟨h1, h2, h3, h4, h5, h6, -⟩ := h
    simp [Credentials.GET, h1, h2, h3, h4, h5, h6]
  all_goals
    intro h
    simp [Credentials.GET, Credentials.mixpanelBlock, h, Js.truthyStr]

/-- C6 witness: with an empty cookie store, `app = "github"` is answered
400 `Wrong data source.` and `app = "salesforce"` is answered 401
`Not authenticated` with no provider API call. -/
theorem credentials_switch_witness :
    Credentials.GET (some ()) (some "github") (fun _ => none) .ok .ok .ok .ok
        .ok .ok =
      ({ status := 400, error := some "Wrong data source." }, []) ∧
    Credentials.GET (some ()) (some "salesforce") (fun _ => none) .ok .ok .ok
        .ok .ok .ok =
      (Credentials.notAuthenticated, []) :=
  ⟨(credentials_switch (some "github") (fun _ => none) .ok .ok .ok .ok .ok
      .ok).1 (by decide),
   (credentials_switch (some "salesforce") (fun _ => none) .ok .ok .ok .ok .ok
      .ok).2.1 rfl⟩

/-- C10: over cookie stores whose present values are nonempty, the
airtable case answers 401 `Not authenticated` exactly when both the
airtable access-token and refresh-token cookies are absent; when only the
refresh token is present the handler instead calls the Airtable API with
the `Authorization` header `Bearer undefined` interpolated from the
absent access token. -/
theorem credentials_airtable_refresh_only (cookies : String → Option String)
    (sfApi hubApi mixApi gaApi airApi : Credentials.ApiOutcome)
    (zohoApi : Credentials.ZohoOutcome) (r : String)
    (hv : ∀ k v, cookies k = some v → v.isEmpty = false)
    (hacc : cookies "airtable_access_token" = none)
    (href : cookies "airtable_refresh_token" = some r) :
    (Credentials.GET (some ()) (some "airtable") cookies sfApi hubApi mixApi
        gaApi airApi zohoApi).2 =
      [⟨"https://api.airtable.com/v0/meta/bases", "Bearer undefined"⟩] ∧
    (Credentials.GET (some ()) (some "airtable") cookies sfApi hubApi mixApi
        gaApi airApi zohoApi).1 ≠ Credentials.notAuthenticated ∧
    (∀ cookies2 : String → Option String,
      (∀ k v, cookies2 k = some v → v.isEmpty = false) →
      ((Credentials.GET (some ()) (some "airtable") cookies2 sfApi hubApi
          mixApi gaApi airApi zohoApi).1 = Credentials.notAuthenticated ↔
        cookies2 "airtable_access_token" = none ∧
          cookies2 "airtable_refresh_token" = none)) := by
  have hre : r.isEmpty = false := hv _ _ href
  refine ⟨?_, ?_, ?_⟩
  · cases airApi <;>
      simp [Credentials.GET, hacc, href, hre, Js.truthyStr, Js.str]
  · cases airApi <;>
      simp [Credentials.GET, hacc, href, hre, Js.truthyStr, Js.str,
        Credentials.notAuthenticated]
  · intro cookies2 hv2
    constructor
    · intro hres
      cases ha : Js.truthyStr (cookies2 "airtable_access_token") with
      | true =>
        exfalso
        cases airApi <;>
          simp [Credentials.GET, ha, Credentials.notAuthenticated] at hres
      | false =>
        cases hb : Js.truthyStr (cookies2 "airtable_refresh_token") with
        | true =>
          exfalso
          cases airApi <;>
            simp [Credentials.GET, ha, hb, Credentials.notAuthenticated] at hres
        | false =>
          exact ⟨(cookie_falsy_iff_absent _ (fun v hvv => hv2 _ v hvv)).1 ha,
            (cookie_falsy_iff_absent _ (fun v hvv => hv2 _ v hvv)).1 hb⟩
    · rintro ⟨h1, h2⟩
      simp [Credentials.GET, h1, h2, Js.truthyStr]

/-- C10 witness: with the cookie store holding only
`airtable_refresh_token = "rt"`, the handler issues the Airtable call with
header `Bearer undefined` and does not answer `Not authenticated`. -/
theorem credentials_airtable_refresh_only_witness :
    (Credentials.GET (some ()) (some "airtable")
        (fun k => if k = "airtable_refresh_token" then some "rt" else none)
        .ok .ok .ok .ok .ok .ok).2 =
      [⟨"https://api.airtable.com/v0/meta/bases", "Bearer undefined"⟩] ∧
    (Credentials.GET (some ()) (some "airtable")
        (fun k => if k = "airtable_refresh_token" then some "rt" else none)
        .ok .ok .ok .ok .ok .ok).1 ≠ Credentials.notAuthenticated := by
  have h := credentials_airtable_refresh_only
    (fun k => if k = "airtable_refresh_token" then some "rt" else none)
    .ok .ok .ok .ok .ok .ok "rt"
    (by
      intro k v hkv
      by_cases hk : k = "airtable_refresh_token"
      · simp [hk] at hkv
        subst hkv
        decide
      · simp [hk] at hkv)
    (by decide) (by decide)
  exact ⟨h.1, h.2.1⟩

/-! ## Extraction run handler (`src/app/api/extractors/run/route.ts`)

The `POST` handler authenticates, requires a truthy `pipeline_id`, looks
up the latest extraction config, inserts a run row with status `queued`,
answers immediately with the new run id, and schedules two fire-and-forget
`setTimeout`s: after 2000 ms the row is updated to `in_progress`, and a
further 10000 ms later (scheduled from inside the first timer) to
`completed`.  No other work is performed.  Rows and scheduled updates are
returned as explicit data; log entries are modelled by their messages.
-/

namespace ExtractorsRun

/-- Outcome of the extraction-config lookup: `PGRST116` (no rows), any
other error (re-thrown into the catch), or the found config id. -/
inductive ConfigLookup
  | errNotFound
  | errOther
  | found (configId : Int)
deriving DecidableEq

/-- A row inserted into `autonomis_bapps_extraction_run`. -/
structure RunRow where
  config_id : Int
  user_id : String
  status : String
  logs : List String
deriving DecidableEq

/-- A scheduled fire-and-forget update of a run row: milliseconds after
the response, the targeted run id, the new status and log messages. -/
structure TimedUpdate where
  delayMs : Nat
  runId : Int
  status : String
  logs : List String
deriving DecidableEq

/-- Responses of the run `POST` handler. -/
inductive Resp
  | unauthorized
  | missingPipelineId
  | noConfig
  | failed
  | started (runId : Int)
deriving DecidableEq

/-- HTTP status of a run response. -/
def Resp.status : Resp → Nat
  | .unauthorized => 401
  | .missingPipelineId => 400
  | .noConfig => 404
  | .failed => 500
  | .started _ => 200

/-- Every response except `started` is a JSON error body
(`success: false` with an `error` message). -/
def Resp.isError : Resp → Bool
  | .started _ => false
  | _ => true

/-- The run `POST` handler.  `insert = some id` models the Supabase insert
resolving with the new row id, `none` a `runError` (thrown into the
catch). -/
def POST (authUser : Option String) (pipeline_id : Option Int)
    (config : ConfigLookup) (insert : Option Int) :
    Resp × List RunRow × List TimedUpdate :=
  match authUser with
  | none => (.unauthorized, [], [])
  | some uid =>
    if !Js.truthyInt pipeline_id then (.missingPipelineId, [], [])
    else
      match config with
      | .errNotFound => (.noConfig, [], [])
      | .errOther => (.failed, [], [])
      | .found cfgId =>
        match insert with
        | none => (.failed, [], [])
        | some runId =>
          (.started runId,
           [{ config_id := cfgId, user_id := uid, status := "queued",
              logs := ["Extraction job queued"] }],
           [{ delayMs := 2000, runId := runId, status := "in_progress",
              logs := ["Extraction job queued", "Extraction job started"] },
            { delayMs := 2000 + 10000, runId := runId, status := "completed",
              logs := ["Extraction job queued", "Extraction job started",
                       "Extraction job completed successfully"] }])

end ExtractorsRun

/-- C2: on the success path the run handler inserts one row with status
`queued`, answers 200 with the run id, and schedules exactly two
fire-and-forget updates of that row and nothing else: status
`in_progress` 2000 ms after the response and status `completed` a further
10000 ms later. -/
theorem extraction_run_fake_progress (uid : String) (pipeline_id : Option Int)
    (cfgId runId : Int) (hp : Js.truthyInt pipeline_id = true) :
    ExtractorsRun.POST (some uid) pipeline_id (.found cfgId) (some runId) =
      (.started runId,
       [{ config_id := cfgId, user_id := uid, status := "queued",
          logs := ["Extraction job queued"] }],
       [{ delayMs := 2000, runId := runId, status := "in_progress",
          logs := ["Extraction job queued", "Extraction job started"] },
        { delayMs := 2000 + 10000, runId := runId, status := "completed",
          logs := ["Extraction job queued", "Extraction job started",
                   "Extraction job completed successfully"] }]) ∧
    (ExtractorsRun.Resp.started runId).status = 200 := by
  refine ⟨?_, rfl⟩
  simp [ExtractorsRun.POST, hp]

/-- C2 witness: the success path at the concrete request
(`uid = "user-1"`, `pipeline_id = 7`, config id 3, run id 42). -/
theorem extraction_run_fake_progress_witness :
    ExtractorsRun.POST (some "user-1") (some 7) (.found 3) (some 42) =
      (.started 42,
       [{ config_id := 3, user_id := "user-1", status := "queued",
          logs := ["Extraction job queued"] }],
       [{ delayMs := 2000, runId := 42, status := "in_progress",
          logs := ["Extraction job queued", "Extraction job started"] },
        { delayMs := 2000 + 10000, runId := 42, status := "completed",
          logs := ["Extraction job queued", "Extraction job started",
                   "Extraction job completed successfully"] }]) :=
  (extraction_run_fake_progress "user-1" (some 7) 3 42 (by decide)).1

/-! ## Zoho OAuth callback (`GET`) and add-to-KB (`POST`) handlers

The Zoho callback answers 400 for an unauthenticated session, 405 when
the `code` query parameter is missing, 400 when all three client env
values are falsy, 400 when the token exchange resolves without data, 200
on success and 500 when the exchange rejects.  The add-to-KB handler
answers 400 for missing body fields, 409 when the connection already
exists, 500 for other failures and for thrown errors, 200 on success.
-/

namespace ZohoCallback

/-- The token payload `zoho_response?.data` of the exchange. -/
structure Tokens where
  access_token : Option String
  refresh_token : Option String
deriving DecidableEq

/-- Outcome of the axios token-exchange call: rejected, or resolved with
possibly-falsy `data`. -/
inductive Exchange
  | threw
  | ok (tokens : Option Tokens)
deriving DecidableEq

/-- Responses of the Zoho callback. -/
inductive Resp
  | invalidRequest
  | codeMissing
  | credsNotFound
  | exchangeFailed
  | success (t : Tokens)
  | fetchError
deriving DecidableEq

/-- HTTP status of a Zoho-callback response. -/
def Resp.status : Resp → Nat
  | .invalidRequest => 400
  | .codeMissing => 405
  | .credsNotFound => 400
  | .exchangeFailed => 400
  | .success _ => 200
  | .fetchError => 500

/-- Every non-`success` response is a JSON error body. -/
def Resp.isError : Resp → Bool
  | .success _ => false
  | _ => true

/-- The Zoho OAuth callback `GET` handler. -/
def GET (user : Option Unit) (code : Option String)
    (clientId clientSecret redirectUri : Option String)
    (exchange : Exchange) : Resp :=
  match user with
  | none => .invalidRequest
  | some _ =>
    if !Js.truthyStr code then .codeMissing
    else if !Js.truthyStr clientId && !Js.truthyStr clientSecret &&
        !Js.truthyStr redirectUri then .credsNotFound
    else
      match exchange with
      | .threw => .fetchError
      | .ok none => .exchangeFailed
      | .ok (some t) => .success t

end ZohoCallback

namespace AddToKb

/-- The resolved value of `addConnectionToKnowledgeBase`. -/
structure KbResult where
  success : Bool
  existing : Bool
deriving DecidableEq

/-- Outcome of the `addConnectionToKnowledgeBase` call. -/
inductive KbCall
  | ok (r : KbResult)
  | threw
deriving DecidableEq

/-- Responses of the add-to-KB handler. -/
inductive Resp
  | missingFields
  | conflict
  | failed
  | added
  | caught
deriving DecidableEq

/-- HTTP status of an add-to-KB response (`result.existing ? 409 : 500`). -/
def Resp.status : Resp → Nat
  | .missingFields => 400
  | .conflict => 409
  | .failed => 500
  | .added => 200
  | .caught => 500

/-- Every response except `added` is a JSON error body. -/
def Resp.isError : Resp → Bool
  | .added => false
  | _ => true

/-- The add-to-KB `POST` handler.  `body = none` models `request.json()`
throwing into the catch. -/
def POST (body : Option (Option String × Option String)) (call : KbCall) :
    Resp :=
  match body with
  | none => .caught
  | some (connectionId, userId) =>
    if !Js.truthyStr connectionId || !Js.truthyStr userId then .missingFields
    else
      match call with
      | .threw => .caught
      | .ok r =>
        if !r.success then (if r.existing then .conflict else .failed)
        else .added

end AddToKb

/-- C1 counterexample: error responses with statuses outside
{400, 401, 402, 500} occur in the handlers the claim cites: the Zoho
callback answers a missing `code` with a 405 error body, and the
add-to-KB handler answers an existing connection with a 409 error body. -/
theorem error_status_outside_documented_set :
    (ZohoCallback.GET (some ()) none (some "id") (some "secret") (some "uri")
        (.ok none)).isError = true ∧
    (ZohoCallback.GET (some ()) none (some "id") (some "secret") (some "uri")
        (.ok none)).status = 405 ∧
    (405 : Nat) ∉ ([400, 401, 402, 500] : List Nat) ∧
    (AddToKb.POST (some (some "c1", some "u1"))
        (.ok { success := false, existing := true })).isError = true ∧
    (AddToKb.POST (some (some "c1", some "u1"))
        (.ok { success := false, existing := true })).status = 409 ∧
    (409 : Nat) ∉ ([400, 401, 402, 500] : List Nat) := by
  decide

/-- C1 (amended): in the cited handlers (Zoho OAuth callback, add-to-KB,
extraction run) every error response is a JSON error body whose HTTP
status lies in {400, 401, 402, 404, 405, 409, 500}; besides the
documented 400/401/402/500, the statuses 404, 405 and 409 also occur. -/
theorem error_statuses_in_extended_set (user : Option Unit)
    (code clientId clientSecret redirectUri : Option String)
    (ex : ZohoCallback.Exchange)
    (body : Option (Option String × Option String)) (call : AddToKb.KbCall)
    (authUser : Option String) (pid : Option Int)
    (cfg : ExtractorsRun.ConfigLookup) (ins : Option Int) :
    ((ZohoCallback.GET user code clientId clientSecret redirectUri
          ex).isError = true →
      (ZohoCallback.GET user code clientId clientSecret redirectUri
          ex).status ∈ ([400, 401, 402, 404, 405, 409, 500] : List Nat)) ∧
    ((AddToKb.POST body call).isError = true →
      (AddToKb.POST body call).status ∈
        ([400, 401, 402, 404, 405, 409, 500] : List Nat)) ∧
    ((ExtractorsRun.POST authUser pid cfg ins).1.isError = true →
      (ExtractorsRun.POST authUser pid cfg ins).1.status ∈
        ([400, 401, 402, 404, 405, 409, 500] : List Nat)) := by
  refine ⟨?_, ?_, ?_⟩
  · intro h
    rcases hG : ZohoCallback.GET user code clientId clientSecret redirectUri ex
      <;> rw [hG] at h <;>
      simp [ZohoCallback.Resp.status, ZohoCallback.Resp.isError] at h ⊢
  · intro h
    rcases hP : AddToKb.POST body call <;> rw [hP] at h <;>
      simp [AddToKb.Resp.status, AddToKb.Resp.isError] at h ⊢
  · intro h
    rcases hR : (ExtractorsRun.POST authUser pid cfg ins).1 <;> rw [hR] at h <;>
      simp [ExtractorsRun.Resp.status, ExtractorsRun.Resp.isError] at h ⊢

/-- C1 witness: the amended status bound applied to three concrete failing
requests, one per cited handler (missing code, thrown KB call,
unauthorized run request). -/
theorem error_statuses_in_extended_set_witness :
    (ZohoCallback.GET (some ()) none (some "id") (some "secret") (some "uri")
        (.ok none)).status ∈ ([400, 401, 402, 404, 405, 409, 500] : List Nat) ∧
    (AddToKb.POST (some (some "c1", some "u1")) .threw).status ∈
      ([400, 401, 402, 404, 405, 409, 500] : List Nat) ∧
    (ExtractorsRun.POST none (some 7) (.found 3) (some 42)).1.status ∈
      ([400, 401, 402, 404, 405, 409, 500] : List Nat) := by
  have h := error_statuses_in_extended_set (some ()) none (some "id")
    (some "secret") (some "uri") (.ok none) (some (some "c1", some "u1"))
    .threw none (some 7) (.found 3) (some 42)
  exact ⟨h.1 (by decide), h.2.1 (by decide), h.2.2 (by decide)⟩

/-! ## S3 file-explorer handler (`POST`)

The handler authenticates, lists the bucket at the requested prefix with
delimiter `/`, builds folder entries from `CommonPrefixes` and file
entries from `Contents` (dropping the current prefix itself and keys
ending in `/`), sorts each group by `name.localeCompare` and returns the
sorted folders followed by the sorted files.  `localeCompare` is modelled
as the code-point order on names; JS `Array.prototype.sort` is modelled
by the stable `List.mergeSort`.
-/

namespace FileExplorer

/-- An S3 object of `Contents`: key, size, and ISO timestamp when present. -/
structure S3Object where
  key : String
  size : Nat
  lastModified : Option String
deriving DecidableEq

/-- The `type` discriminator of a returned entry. -/
inductive EntryType
  | folder
  | file
deriving DecidableEq

/-- An entry of the returned `objects` array. -/
structure Entry where
  key : String
  name : String
  size : Nat
  lastModified : String
  type : EntryType
deriving DecidableEq

/-- Folder display name: `key.split('/').filter(Boolean).pop() + '/'`
(JS renders the `undefined` of an empty pop as `"undefined/"`). -/
def folderName (key : String) : String :=
  match ((key.splitOn "/").filter (fun s => !s.isEmpty)).getLast? with
  | some s => s ++ "/"
  | none => "undefined/"

/-- Folder entry built from one `CommonPrefixes` prefix; `now` models
`new Date().toISOString()`. -/
def folderEntry (now : String) (key : String) : Entry :=
  { key := key, name := folderName key, size := 0, lastModified := now,
    type := .folder }

/-- File display name: `key.split('/').pop() || key`. -/
def fileName (key : String) : String :=
  let n := (key.splitOn "/").getLastD ""
  if n.isEmpty then key else n

/-- File entry built from one `Contents` item. -/
def fileEntry (now : String) (o : S3Object) : Entry :=
  { key := o.key, name := fileName o.key, size := o.size,
    lastModified := o.lastModified.getD now, type := .file }

/-- The sort comparator `(a, b) => a.name.localeCompare(b.name)`. -/
def nameLe (a b : Entry) : Bool := a.name ≤ b.name

/-- The folder entries of a listing. -/
def folderEntries (now : String) (commonPrefixes : List String) :
    List Entry :=
  commonPrefixes.map (folderEntry now)

/-- The file entries of a listing: `Contents` minus the current prefix
itself and minus folder markers. -/
def fileEntries (now : String) (pfx : String) (contents : List S3Object) :
    List Entry :=
  ((contents.filter (fun o => o.key ≠ pfx)).filter
      (fun o => !o.key.endsWith "/")).map (fileEntry now)

/-- Responses of the file-explorer handler. -/
inductive Resp
  | unauthorized
  | browseError
  | ok (objects : List Entry)
deriving DecidableEq

/-- HTTP status of a file-explorer response. -/
def Resp.status : Resp → Nat
  | .unauthorized => 401
  | .browseError => 500
  | .ok _ => 200

/-- The file-explorer `POST` handler.  `s3 = none` models the
`ListObjectsV2Command` send throwing; `s3 = some (commonPrefixes,
contents)` a resolved listing. -/
def POST (user : Option Unit) (pfx : String) (now : String)
    (s3 : Option (List String × List S3Object)) : Resp :=
  match user with
  | none => .unauthorized
  | some _ =>
    match s3 with
    | none => .browseError
    | some (commonPrefixes, contents) =>
      let folders := (folderEntries now commonPrefixes).mergeSort nameLe
      let files := (fileEntries now pfx contents).mergeSort nameLe
      .ok (folders ++ files)

end FileExplorer

/-- C7: every successful file-explorer listing returns the folder entries
derived from `CommonPrefixes` sorted ascending by name, followed by the
file entries derived from `Contents` with the current prefix itself and
the keys ending in `/` filtered out, sorted ascending by name; every
folder entry precedes every file entry. -/
theorem file_explorer_objects (pfx now : String)
    (commonPrefixes : List String) (contents : List FileExplorer.S3Object) :
    ∃ A B,
      FileExplorer.POST (some ()) pfx now (some (commonPrefixes, contents)) =
        .ok (A ++ B) ∧
      A.Perm (FileExplorer.folderEntries now commonPrefixes) ∧
      B.Perm (FileExplorer.fileEntries now pfx contents) ∧
      (∀ a ∈ A, a.type = FileExplorer.EntryType.folder) ∧
      (∀ b ∈ B, b.type = FileExplorer.EntryType.file) ∧
      A.Pairwise (fun a b => a.name ≤ b.name) ∧
      B.Pairwise (fun a b => a.name ≤ b.name) := by
  have htrans : ∀ (a b c : FileExplorer.Entry),
      FileExplorer.nameLe a b = true → FileExplorer.nameLe b c = true →
      FileExplorer.nameLe a c = true := by
    intro a b c hab hbc
    simp only [FileExplorer.nameLe, decide_eq_true_eq] at hab hbc ⊢
    exact le_trans hab hbc
  have htotal : ∀ (a b : FileExplorer.Entry),
      (FileExplorer.nameLe a b || FileExplorer.nameLe b a) = true := by
    intro a b
    simp only [FileExplorer.nameLe, Bool.or_eq_true, decide_eq_true_eq]
    exact le_total a.name b.name
  refine ⟨(FileExplorer.folderEntries now commonPrefixes).mergeSort
      FileExplorer.nameLe,
    (FileExplorer.fileEntries now pfx contents).mergeSort FileExplorer.nameLe,
    rfl, List.mergeSort_perm _ _, List.mergeSort_perm _ _, ?_, ?_, ?_, ?_⟩
  · intro a ha
    have hmem : a ∈ FileExplorer.folderEntries now commonPrefixes :=
      (List.mergeSort_perm _ _).mem_iff.mp ha
    rcases List.mem_map.mp hmem with ⟨k, -, rfl⟩
    rfl
  · intro b hb
    have hmem : b ∈ FileExplorer.fileEntries now pfx contents :=
      (List.mergeSort_perm _ _).mem_iff.mp hb
    rcases List.mem_map.mp hmem with ⟨o, -, rfl⟩
    rfl
  · exact (List.sorted_mergeSort htrans htotal
      (FileExplorer.folderEntries now commonPrefixes)).imp
      (fun hab => by
        simpa only [FileExplorer.nameLe, decide_eq_true_eq] using hab)
  · exact (List.sorted_mergeSort htrans htotal
      (FileExplorer.fileEntries now pfx contents)).imp
      (fun hab => by
        simpa only [FileExplorer.nameLe, decide_eq_true_eq] using hab)
